import Mathlib

/-!
# CT-HYB simulation engine (`hybsim.cpp`): configuration checks and progress report

A shallow embedding of `hybridization::sanity_check`,
`hybridization::fraction_completed` and the constructor
`hybridization::hybridization` of `src/hybsim.cpp`.

Conventions of the embedding.

* A C++ `int`/`long`/`clock_t` value is an `Int`; `/` and `%` on them are the
  truncating `Int.tdiv` and `Int.tmod`.  The arithmetic of the source is taken
  exactly: the values are counts of frequencies, sweeps and clock ticks, and
  signed overflow has no defined meaning in the source language.
* A `double` is an exact rational (`ℚ`).
* An `alps::params` object is a record: a flag is a `Bool` (every flag the
  engine reads has a default in `define_parameters`), a numeric option is an
  `Option` (`none` when the option has no value, which is what
  `parms.exists` tests). `define_parameters` gives the numeric options that
  have a default their value.
* A function that can throw returns `Except Exception _`.
-/

namespace CTHyb

/-! ## Parameters and exceptions -/

/-- The exceptions the embedded code can raise. `invalid_argument` is
`std::invalid_argument` with its message; `uninitialized_value` stands for the
error of the parameter library when an option without a value is read. -/
inductive Exception where
  | invalid_argument (what : String)
  | uninitialized_value (name : String)
  deriving DecidableEq, Repr

/-- The options of `alps::params` that the engine reads. -/
structure params where
  COMPUTE_VERTEX : Bool := false
  GLOBALFLIP : Bool := false
  MEASURE_freq : Bool := false
  MEASURE_g2w : Bool := false
  MEASURE_h2w : Bool := false
  MEASURE_legendre : Bool := false
  MEASURE_nn : Bool := false
  MEASURE_nnt : Bool := false
  MEASURE_nnw : Bool := false
  MEASURE_sector_statistics : Bool := false
  MEASURE_time : Bool := false
  SPINFLIP : Bool := false
  VERBOSE : Bool := true
  BETA : Option ℚ := none
  MAX_TIME : Option Int := none
  N_HISTOGRAM_ORDERS : Option Int := none
  N_LEGENDRE : Option Int := none
  N_MATSUBARA : Option Int := none
  N_MEAS : Option Int := none
  N_ORBITALS : Option Int := none
  N_TAU : Option Int := none
  N_W : Option Int := none
  N_nn : Option Int := none
  N_w2 : Option Int := none
  SWEEPS : Option Int := none
  THERMALIZATION : Option Int := none

/-- The test `parms.exists(name)`: the option has a value. -/
def params_exists {α : Type} (o : Option α) : Bool := o.isSome

/-- The read `parms[name]` of a numeric option: its value, or the library's
error when it has none. -/
def value {α : Type} (name : String) (o : Option α) : Except Exception α :=
  match o with
  | some v => .ok v
  | none => .error (.uninitialized_value name)

/-- The statement `if (c) throw e;`: raises `e` when `c` holds and falls
through otherwise. -/
def throw_if (c : Bool) (e : Exception) : Except Exception Unit :=
  if c then .error e else .ok ()

/-! ## `hybridization::define_parameters` -/

/-- One `.define<T>(name, default, description)`: an option without a value
gets the default, a supplied value is kept. -/
def define_default {α : Type} (o : Option α) (default : α) : Option α :=
  match o with
  | some v => some v
  | none => some default

/-- The function `hybridization::define_parameters` (lines 197-252), on the
options of the record: restored parameters are returned as they are; otherwise
`MAX_TIME`, `N_HISTOGRAM_ORDERS`, `N_LEGENDRE`, `N_MATSUBARA` and `N_nn` get
their defaults (lines 219, 233-235, 240) and the options defined without a
default keep the state they have. The defaults of the flags are those of the
record. -/
def define_parameters (is_restored : Bool) (parameters : params) : params :=
  if is_restored then parameters
  else
    { parameters with
      MAX_TIME := define_default parameters.MAX_TIME 60
      N_HISTOGRAM_ORDERS := define_default parameters.N_HISTOGRAM_ORDERS 200
      N_LEGENDRE := define_default parameters.N_LEGENDRE 0
      N_MATSUBARA := define_default parameters.N_MATSUBARA 0
      N_nn := define_default parameters.N_nn 0 }

/-! ## `hybridization::sanity_check` -/

/-- The function `hybridization::sanity_check` (lines 121-146). The result of a
normal return is the value assigned to `VERBOSE`. -/
def sanity_check (parms : params) : Except Exception Bool := do
  throw_if (parms.MEASURE_freq && !params_exists parms.N_MATSUBARA)
    (.invalid_argument "please specify parameter N_MATSUBARA for # of Matsubara frequencies to be measured")
  throw_if (parms.MEASURE_legendre && !params_exists parms.N_LEGENDRE)
    (.invalid_argument "please specify parameter N_LEGENDRE for # of Legendre coefficients to be measured")
  throw_if (parms.MEASURE_legendre && !params_exists parms.N_MATSUBARA)
    (.invalid_argument "please specify parameter N_MATSUBARA for # of Matsubara frequencies")
  throw_if (parms.MEASURE_nnt && !params_exists parms.N_nn)
    (.invalid_argument "please specify the parameter N_nn for # of imaginary time points for the density-density correlator")
  throw_if (parms.MEASURE_nnw && !params_exists parms.N_W)
    (.invalid_argument "please specify the parameter N_W for # of bosonic frequencies for the density-density correlator")
  if parms.MEASURE_g2w || parms.MEASURE_h2w then
    throw_if (!params_exists parms.N_w2)
      (.invalid_argument "please specify the parameter N_w2 for # of fermionic Matsubara frequencies for two-particle functions")
    throw_if (!params_exists parms.N_W)
      (.invalid_argument "please specify the parameter N_W for # of bosonic Matsubara frequencies for two-particle functions")
    throw_if (Int.tmod (← value "N_w2" parms.N_w2) 2 != 0)
      (.invalid_argument "parameter N_w2 must be even")
  if parms.COMPUTE_VERTEX then
    throw_if (!parms.MEASURE_freq)
      (.invalid_argument "frequency measurement is required for computing the vertex, please set MEASURE_freq=1")
    throw_if (!(parms.MEASURE_g2w || parms.MEASURE_h2w))
      (.invalid_argument "at least one two-particle quantity is required for computing the vertex, set MEASURE_g2w=1 or MEASURE_h2w=1")
    throw_if (decide ((← value "N_MATSUBARA" parms.N_MATSUBARA)
        < Int.tdiv (← value "N_w2" parms.N_w2) 2 + (← value "N_W" parms.N_W) - 1))
      (.invalid_argument "for computing the vertex, N_MATSUBARA must be at least N_w2/2+N_W-1")
  return parms.VERBOSE

/-! ## The engine object -/

/-- The class `local_configuration` is declared outside `hybsim.cpp`; an object
of it is represented by the arguments its constructor received. -/
structure local_configuration where
  parms : params
  crank : Int

/-- The class `hybridization_configuration` is declared outside `hybsim.cpp`;
an object of it is represented by the argument its constructor received. -/
structure hybridization_configuration where
  parms : params

/-- The data members of `hybridization` that `hybsim.cpp` initialises. Their
declarations are in `hyb.hpp`, which is not among the sources: the integer
members are integers here, the `double` members rationals, and the two vectors
of counters lists. -/
structure hybridization where
  crank : Int
  local_config : local_configuration
  hyb_config : hybridization_configuration
  VERBOSE : Bool
  nacc : List ℚ
  nprop : List ℚ
  sweep_count : Int
  update_type : List String
  sweeps : Int
  thermalization_sweeps : Int
  total_sweeps : Int
  n_orbitals : Int
  sign : ℚ
  beta : ℚ
  N_meas : Int
  N_hist_orders : Int
  spin_flip : Bool
  global_flip : Bool
  MEASURE_nnt : Bool
  MEASURE_nnw : Bool
  MEASURE_nn : Bool
  MEASURE_g2w : Bool
  MEASURE_h2w : Bool
  MEASURE_time : Bool
  MEASURE_freq : Bool
  MEASURE_legendre : Bool
  MEASURE_sector_statistics : Bool
  N_w : Int
  N_l : Int
  N_t : Int
  N_nn : Int
  N_w2 : Int
  N_W : Int
  N_w_aux : Int
  start_time : Int
  end_time : Int
  csize : Int

/-- What the constructor has brought into existence so far: the base
sub-object, a data member, or the measurement objects. -/
inductive Part where
  | mcbase | crank | local_config | hyb_config | VERBOSE
  | nacc | nprop | sweep_count | update_type
  | sweeps | thermalization_sweeps | total_sweeps | n_orbitals | sign | beta
  | N_meas | N_hist_orders | spin_flip | global_flip
  | MEASURE_nnt | MEASURE_nnw | MEASURE_nn | MEASURE_g2w | MEASURE_h2w
  | MEASURE_time | MEASURE_freq | MEASURE_legendre | MEASURE_sector_statistics
  | N_w | N_l | N_t | N_nn | N_w2 | N_W | N_w_aux
  | measurements | start_time | end_time | csize
  deriving DecidableEq, Repr

/-- A constructor in progress: it may throw, and it records the parts
initialised so far, oldest first. -/
abbrev Ctor (α : Type) : Type := ExceptT Exception (StateM (List Part)) α

/-- Initialise part `p` with the value `v`. -/
def init {α : Type} (p : Part) (v : α) : Ctor α := do
  modify (fun done => done ++ [p])
  pure v

/-- Run a throwing computation inside the constructor. -/
def call {α : Type} (x : Except Exception α) : Ctor α :=
  match x with
  | .ok v => pure v
  | .error e => throw e

/-- The constructor `hybridization::hybridization` (lines 37-119). The base
class and the members named in the member-initialiser list come first, then the
statements of the body in their order. `CLOCKS_PER_SEC` is the constant of the C
library, `clock` the reading of `clock()` at line 103, and `mpi_comm_size` the
size of `MPI_COMM_WORLD` when the program is built with MPI and MPI has been
initialised. `show_info` and the banner only write to `std::cout`, which the
embedding does not represent; `create_measurements()` is defined in another
file and is represented by the part it brings into existence. -/
def hybridization_ctor (CLOCKS_PER_SEC clock : Int) (mpi_comm_size : Option Int)
    (parms : params) (crank_ : Int) : Ctor hybridization := do
  let _ ← init .mcbase ()
  let crank ← init .crank crank_
  let local_config ← init .local_config (local_configuration.mk parms crank)
  let hyb_config ← init .hyb_config (hybridization_configuration.mk parms)
  let VERBOSE ← init .VERBOSE (← call (sanity_check parms))
  let nacc ← init .nacc (List.replicate 7 (0 : ℚ))
  let nprop ← init .nprop (List.replicate 7 (0 : ℚ))
  let sweep_count ← init .sweep_count (0 : Int)
  let update_type ← init .update_type
    ["change zero state   ", "insert segment      ", "remove segment      ",
     "insert anti-segment ", "remove anti-segment ", "swap segment        ",
     "global flip         "]
  let sweeps ← init .sweeps (0 : Int)
  let thermalization_sweeps ← init .thermalization_sweeps
    (← call (value "THERMALIZATION" parms.THERMALIZATION))
  let total_sweeps ← init .total_sweeps (← call (value "SWEEPS" parms.SWEEPS))
  let n_orbitals ← init .n_orbitals (← call (value "N_ORBITALS" parms.N_ORBITALS))
  let sign ← init .sign (1 : ℚ)
  let beta ← init .beta (← call (value "BETA" parms.BETA))
  let N_meas ← init .N_meas (← call (value "N_MEAS" parms.N_MEAS))
  let N_hist_orders ← init .N_hist_orders
    (← call (value "N_HISTOGRAM_ORDERS" parms.N_HISTOGRAM_ORDERS))
  let spin_flip ← init .spin_flip parms.SPINFLIP
  let global_flip ← init .global_flip parms.GLOBALFLIP
  let MEASURE_nnt ← init .MEASURE_nnt parms.MEASURE_nnt
  let MEASURE_nnw ← init .MEASURE_nnw parms.MEASURE_nnw
  let MEASURE_nn ← init .MEASURE_nn parms.MEASURE_nn
  let MEASURE_g2w ← init .MEASURE_g2w parms.MEASURE_g2w
  let MEASURE_h2w ← init .MEASURE_h2w parms.MEASURE_h2w
  let MEASURE_time ← init .MEASURE_time parms.MEASURE_time
  let MEASURE_freq ← init .MEASURE_freq parms.MEASURE_freq
  let MEASURE_legendre ← init .MEASURE_legendre parms.MEASURE_legendre
  let MEASURE_sector_statistics ← init .MEASURE_sector_statistics parms.MEASURE_sector_statistics
  let N_w ← init .N_w (← call (value "N_MATSUBARA" parms.N_MATSUBARA))
  let N_l ← init .N_l (← call (value "N_LEGENDRE" parms.N_LEGENDRE))
  let N_t ← init .N_t (← call (value "N_TAU" parms.N_TAU))
  let N_nn ← init .N_nn (← call (value "N_nn" parms.N_nn))
  let N_w2 ← init .N_w2 (← call (value "N_w2" parms.N_w2))
  let N_W ← init .N_W (← call (value "N_W" parms.N_W))
  let N_w_aux ← init .N_w_aux (if N_w2 + N_W > 1 then N_w2 + N_W - 1 else 0)
  let _ ← init .measurements ()
  let start_time ← init .start_time clock
  let end_time ← init .end_time
    (start_time + CLOCKS_PER_SEC * (← call (value "MAX_TIME" parms.MAX_TIME)))
  let csize ← init .csize (1 : Int)
  let csize := match mpi_comm_size with
    | some n => n
    | none => csize
  return { crank, local_config, hyb_config, VERBOSE, nacc, nprop, sweep_count, update_type,
           sweeps, thermalization_sweeps, total_sweeps, n_orbitals, sign, beta, N_meas,
           N_hist_orders, spin_flip, global_flip, MEASURE_nnt, MEASURE_nnw, MEASURE_nn,
           MEASURE_g2w, MEASURE_h2w, MEASURE_time, MEASURE_freq, MEASURE_legendre,
           MEASURE_sector_statistics, N_w, N_l, N_t, N_nn, N_w2, N_W, N_w_aux,
           start_time, end_time, csize }

/-- Run the constructor from the empty record: its outcome (the engine, or the
exception that leaves it) and the parts that had been initialised when it
ended. -/
def construct (CLOCKS_PER_SEC clock : Int) (mpi_comm_size : Option Int)
    (parms : params) (crank_ : Int) : Except Exception hybridization × List Part :=
  ((hybridization_ctor CLOCKS_PER_SEC clock mpi_comm_size parms crank_).run).run []

/-! ## `hybridization::fraction_completed` -/

/-- Modelled from the spec: `is_thermalized()` is declared in `hyb.hpp`, which
is not among the sources. The spec has the engine thermalizing while the number
of sweeps done is below `thermalization_sweeps`; the sweep counter that
`fraction_completed` reads is the member `sweeps`. -/
def is_thermalized (h : hybridization) : Bool :=
  decide (h.sweeps ≥ h.thermalization_sweeps)

/-- The local `work_fraction` of `fraction_completed` (line 190): the integer
difference, divided as a `double` by `total_sweeps`. -/
def work_fraction (h : hybridization) : ℚ :=
  ((h.sweeps - h.thermalization_sweeps : Int) : ℚ) / (h.total_sweeps : ℚ)

/-- The local `time_fraction` of `fraction_completed` (line 191); `clock` is the
reading of `clock()`. -/
def time_fraction (h : hybridization) (clock : Int) : ℚ :=
  ((clock - h.start_time : Int) : ℚ) / ((h.end_time - h.start_time : Int) : ℚ)

/-- The function `hybridization::fraction_completed` (lines 188-195). -/
def fraction_completed (h : hybridization) (clock : Int) : ℚ :=
  if !is_thermalized h then 0
  else max (work_fraction h) (time_fraction h clock / (h.csize : ℚ))

/-! ## Predicates used to state the properties -/

/-- The constraints that `sanity_check` enforces, read off its checks: every
enabled measurement has its companion options, `N_w2` is even for a
two-particle measurement, and the vertex computation has its prerequisites. -/
def accepted (p : params) : Prop :=
  (p.MEASURE_freq = true → p.N_MATSUBARA.isSome = true) ∧
  (p.MEASURE_legendre = true → p.N_LEGENDRE.isSome = true ∧ p.N_MATSUBARA.isSome = true) ∧
  (p.MEASURE_nnt = true → p.N_nn.isSome = true) ∧
  (p.MEASURE_nnw = true → p.N_W.isSome = true) ∧
  ((p.MEASURE_g2w = true ∨ p.MEASURE_h2w = true) →
      ∃ n, p.N_w2 = some n ∧ p.N_W.isSome = true ∧ Int.tmod n 2 = 0) ∧
  (p.COMPUTE_VERTEX = true →
      p.MEASURE_freq = true ∧ (p.MEASURE_g2w = true ∨ p.MEASURE_h2w = true) ∧
      ∃ m n w, p.N_MATSUBARA = some m ∧ p.N_w2 = some n ∧ p.N_W = some w ∧
        Int.tdiv n 2 + w - 1 ≤ m)

/-- The prerequisites of the vertex computation: the frequency measurement, a
two-particle measurement, and `N_MATSUBARA >= N_w2/2 + N_W - 1` with the
truncating division of the source. -/
def vertex_prerequisites (p : params) : Prop :=
  p.MEASURE_freq = true ∧ (p.MEASURE_g2w = true ∨ p.MEASURE_h2w = true) ∧
  ∃ m n w, p.N_MATSUBARA = some m ∧ p.N_w2 = some n ∧ p.N_W = some w ∧
    m ≥ Int.tdiv n 2 + w - 1

/-! ## Concrete inputs -/

/-- A complete parameter set: no thermalization, 100 sweeps, a budget of 60
seconds, no optional measurement. -/
def short_run : params :=
  { BETA := some 1, MAX_TIME := some 60, N_HISTOGRAM_ORDERS := some 200, N_LEGENDRE := some 0,
    N_MATSUBARA := some 0, N_MEAS := some 1, N_ORBITALS := some 2, N_TAU := some 1,
    N_W := some 0, N_nn := some 0, N_w2 := some 0, SWEEPS := some 100,
    THERMALIZATION := some 0 }

/-- The engine that the constructor builds from `short_run` on rank 0 with
`CLOCKS_PER_SEC = 1000000`, `clock() = 0` and a pool of `csize` workers, after
`sweeps` sweeps with the thermalization threshold set to `thermalization`. -/
def engine (sweeps thermalization csize : Int) : hybridization :=
  { crank := 0, local_config := ⟨short_run, 0⟩, hyb_config := ⟨short_run⟩, VERBOSE := true,
    nacc := List.replicate 7 0, nprop := List.replicate 7 0, sweep_count := 0,
    update_type :=
      ["change zero state   ", "insert segment      ", "remove segment      ",
       "insert anti-segment ", "remove anti-segment ", "swap segment        ",
       "global flip         "],
    sweeps := sweeps, thermalization_sweeps := thermalization, total_sweeps := 100,
    n_orbitals := 2, sign := 1, beta := 1, N_meas := 1, N_hist_orders := 200,
    spin_flip := false, global_flip := false, MEASURE_nnt := false, MEASURE_nnw := false,
    MEASURE_nn := false, MEASURE_g2w := false, MEASURE_h2w := false, MEASURE_time := false,
    MEASURE_freq := false, MEASURE_legendre := false, MEASURE_sector_statistics := false,
    N_w := 0, N_l := 0, N_t := 1, N_nn := 0, N_w2 := 0, N_W := 0, N_w_aux := 0,
    start_time := 0, end_time := 60000000, csize := csize }

/-- The complete parameter set `short_run` with the example of the spec for an
odd number of fermionic frequencies: `MEASURE_g2w` enabled, `N_w2 = 3`,
`N_W = 2`. -/
def odd_N_w2_run : params :=
  { short_run with MEASURE_g2w := true, N_w2 := some 3, N_W := some 2 }

/-- A parameter set that asks for the vertex and meets its prerequisites:
`N_MATSUBARA = 3 = 4/2 + 2 - 1`. -/
def vertex_run : params :=
  { COMPUTE_VERTEX := true, MEASURE_freq := true, MEASURE_g2w := true,
    N_MATSUBARA := some 3, N_w2 := some 4, N_W := some 2 }

/-! ## Lemmas on `sanity_check` -/

/-- Sequencing after `if (c) throw e;`. -/
theorem throw_if_bind {α : Type} (c : Bool) (e : Exception) (f : Unit → Except Exception α) :
    (throw_if c e >>= f) = if c = true then .error e else f () := by
  cases c <;> rfl

/-- Every run of `sanity_check` either returns `VERBOSE`, and then all the
constraints hold, or raises `std::invalid_argument`, and then one of them
fails. The library error for an unset option is never raised. -/
theorem sanity_check_cases (p : params) :
    (sanity_check p = .ok p.VERBOSE ∧ accepted p) ∨
    (∃ msg, sanity_check p = .error (.invalid_argument msg) ∧ ¬ accepted p) := by
  obtain ⟨cv, gf, mf, g2, h2, ml, mnn, mnt, mnw, mss, mt, sf, vb, be, mx, nh, nl, nm, nme, no, nt,
    nW, nnn, nw2, sw, th⟩ := p
  simp only [sanity_check, accepted, params_exists, throw_if_bind]
  by_cases c1 : (mf && !nm.isSome) = true
  · right; refine ⟨_, by rw [if_pos c1], ?_⟩
    simp at c1; simp [c1]
  rw [if_neg c1]
  by_cases c2 : (ml && !nl.isSome) = true
  · right; refine ⟨_, by rw [if_pos c2], ?_⟩
    simp at c2; simp [c2]
  rw [if_neg c2]
  by_cases c3 : (ml && !nm.isSome) = true
  · right; refine ⟨_, by rw [if_pos c3], ?_⟩
    simp at c3; simp [c3]
  rw [if_neg c3]
  by_cases c4 : (mnt && !nnn.isSome) = true
  · right; refine ⟨_, by rw [if_pos c4], ?_⟩
    simp at c4; simp [c4]
  rw [if_neg c4]
  by_cases c5 : (mnw && !nW.isSome) = true
  · right; refine ⟨_, by rw [if_pos c5], ?_⟩
    simp at c5; simp [c5]
  rw [if_neg c5]
  simp only [Bool.and_eq_true, Bool.not_eq_true', not_and, Bool.not_eq_false] at c1 c2 c3 c4 c5
  cases g2 <;> cases h2 <;> cases cv <;> cases mf <;> cases nw2 <;> cases nW <;> cases nm <;>
    simp [value, bind, Except.bind, pure, Except.pure] at c1 c3 c5 ⊢ <;>
    (try split_ifs) <;> simp_all <;> omega

/-- The test `n % 2 != 0` of the source, with its truncating remainder, fails
exactly on the even integers, of either sign. -/
theorem tmod_two_eq_zero_iff_even (n : Int) : Int.tmod n 2 = 0 ↔ Even n := by
  rw [← Int.dvd_iff_tmod_eq_zero, even_iff_two_dvd]


/-! ## Configuration checks (C4 - C7) -/

/-- C4: for every parameter set, `sanity_check` raises `std::invalid_argument`
whenever an enabled measurement lacks a required companion option:
`MEASURE_freq` without `N_MATSUBARA`; `MEASURE_legendre` without `N_LEGENDRE`
or without `N_MATSUBARA`; `MEASURE_nnt` without `N_nn`; `MEASURE_nnw` without
`N_W`; `MEASURE_g2w` or `MEASURE_h2w` without `N_w2` or without `N_W`. -/
theorem sanity_check_missing_companion (p : params)
    (h : (p.MEASURE_freq = true ∧ p.N_MATSUBARA = none) ∨
         (p.MEASURE_legendre = true ∧ (p.N_LEGENDRE = none ∨ p.N_MATSUBARA = none)) ∨
         (p.MEASURE_nnt = true ∧ p.N_nn = none) ∨
         (p.MEASURE_nnw = true ∧ p.N_W = none) ∨
         ((p.MEASURE_g2w = true ∨ p.MEASURE_h2w = true) ∧ (p.N_w2 = none ∨ p.N_W = none))) :
    ∃ msg, sanity_check p = .error (.invalid_argument msg) := by
  rcases sanity_check_cases p with ⟨_, hacc⟩ | ⟨msg, hmsg, _⟩
  · exfalso
    obtain ⟨a1, a2, a3, a4, a5, _⟩ := hacc
    rcases h with ⟨hf, hn⟩ | ⟨hl, hn⟩ | ⟨ht, hn⟩ | ⟨hw, hn⟩ | ⟨h2, hn⟩
    · simpa [hn] using a1 hf
    · rcases hn with hn | hn
      · simpa [hn] using (a2 hl).1
      · simpa [hn] using (a2 hl).2
    · simpa [hn] using a3 ht
    · simpa [hn] using a4 hw
    · obtain ⟨n, hn2, hW, _⟩ := a5 h2
      rcases hn with hn | hn
      · simp [hn] at hn2
      · simp [hn] at hW
  · exact ⟨msg, hmsg⟩

/-- Witness for C4: `MEASURE_freq` enabled and no option set. -/
theorem sanity_check_missing_companion_witness :
    ∃ msg, sanity_check { MEASURE_freq := true } = .error (.invalid_argument msg) :=
  sanity_check_missing_companion { MEASURE_freq := true } (Or.inl ⟨rfl, rfl⟩)

/-- C5: for every parameter set with `COMPUTE_VERTEX` enabled, `sanity_check`
returns normally only if `MEASURE_freq` is enabled, one of `MEASURE_g2w` and
`MEASURE_h2w` is enabled, and `N_MATSUBARA >= N_w2/2 + N_W - 1` (truncating
division); if any of the three fails, it raises `std::invalid_argument`. -/
theorem sanity_check_vertex (p : params) (hcv : p.COMPUTE_VERTEX = true) :
    ((∃ v, sanity_check p = .ok v) → vertex_prerequisites p) ∧
    (¬ vertex_prerequisites p → ∃ msg, sanity_check p = .error (.invalid_argument msg)) := by
  rcases sanity_check_cases p with ⟨_, hacc⟩ | ⟨msg, hmsg, _⟩
  · have hv : vertex_prerequisites p := hacc.2.2.2.2.2 hcv
    exact ⟨fun _ => hv, fun hn => absurd hv hn⟩
  · refine ⟨?_, fun _ => ⟨msg, hmsg⟩⟩
    rintro ⟨v, hv⟩
    rw [hmsg] at hv
    cases hv

/-- Witness for C5: the vertex computation requested with nothing else set is
rejected, and `vertex_run`, which is accepted, has the prerequisites. -/
theorem sanity_check_vertex_witness :
    (∃ msg, sanity_check { COMPUTE_VERTEX := true } = .error (.invalid_argument msg)) ∧
    vertex_prerequisites vertex_run :=
  ⟨(sanity_check_vertex { COMPUTE_VERTEX := true } rfl).2 (fun h => Bool.noConfusion h.1),
   (sanity_check_vertex vertex_run rfl).1 ⟨true, rfl⟩⟩

/-- An option that `define_parameters` has given a default has a value. -/
theorem define_default_ne_none {α : Type} (o : Option α) (default : α) :
    define_default o default ≠ none := by
  cases o <;> simp [define_default]

/-- When the companion checks of lines 126-130 pass, an odd `N_w2` under a
two-particle measurement with `N_w2` and `N_W` set stops `sanity_check` at
line 135. -/
theorem sanity_check_odd_of_companions (p : params) (n w : Int)
    (h2p : p.MEASURE_g2w = true ∨ p.MEASURE_h2w = true)
    (hn : p.N_w2 = some n) (hw : p.N_W = some w) (hodd : Odd n)
    (hf : p.MEASURE_freq = true → p.N_MATSUBARA ≠ none)
    (hl : p.MEASURE_legendre = true → p.N_LEGENDRE ≠ none ∧ p.N_MATSUBARA ≠ none)
    (ht : p.MEASURE_nnt = true → p.N_nn ≠ none) :
    sanity_check p = .error (.invalid_argument "parameter N_w2 must be even") := by
  have hne : Int.tmod n 2 ≠ 0 := by
    rw [Ne, tmod_two_eq_zero_iff_even, Int.not_even_iff_odd]; exact hodd
  obtain ⟨cv, gf, mf, g2, h2, ml, mnn, mnt, mnw, mss, mt, sf, vb, be, mx, nh, nl, nm, nme, no,
    nt, nW, nnn, nw2, sw, th⟩ := p
  simp only at h2p hn hw hf hl ht
  subst hn hw
  have c1 : (mf && !(nm.isSome)) = false := by
    cases mf <;> cases nm <;> simp_all
  have c2 : (ml && !(nl.isSome)) = false := by
    cases ml <;> cases nl <;> simp_all
  have c3 : (ml && !(nm.isSome)) = false := by
    cases ml <;> cases nm <;> simp_all
  have c4 : (mnt && !(nnn.isSome)) = false := by
    cases mnt <;> cases nnn <;> simp_all
  have c6 : (g2 || h2) = true := by
    rcases h2p with h | h <;> simp [h]
  have c5 : (mnw && !((some w : Option Int).isSome)) = false := by simp
  simp only [sanity_check, params_exists, throw_if_bind, c1, c2, c3, c4, c5, c6]
  simp [value, bind, Except.bind, hne]

/-- C6: for every parameter set, as `define_parameters` leaves it, in which
`MEASURE_g2w` or `MEASURE_h2w` is enabled and `N_w2` and `N_W` are both set, if
`N_w2` is odd (positive or negative) then `sanity_check` fails with the
`std::invalid_argument` "parameter N_w2 must be even". -/
theorem sanity_check_odd_N_w2 (supplied : params) (n w : Int)
    (h2p : (define_parameters false supplied).MEASURE_g2w = true ∨
      (define_parameters false supplied).MEASURE_h2w = true)
    (hn : (define_parameters false supplied).N_w2 = some n)
    (hw : (define_parameters false supplied).N_W = some w) (hodd : Odd n) :
    sanity_check (define_parameters false supplied)
      = .error (.invalid_argument "parameter N_w2 must be even") := by
  apply sanity_check_odd_of_companions (define_parameters false supplied) n w h2p hn hw hodd
  · intro _
    exact define_default_ne_none supplied.N_MATSUBARA 0
  · intro _
    exact ⟨define_default_ne_none supplied.N_LEGENDRE 0,
      define_default_ne_none supplied.N_MATSUBARA 0⟩
  · intro _
    exact define_default_ne_none supplied.N_nn 0

/-- Witness for C6: the example of the spec, `N_w2 = 3` with `MEASURE_g2w`
enabled and `N_W = 2`; and `N_w2 = -3` with `MEASURE_h2w` and `MEASURE_freq`
enabled. -/
theorem sanity_check_odd_N_w2_witness :
    sanity_check (define_parameters false
        { MEASURE_g2w := true, N_w2 := some 3, N_W := some 2 })
      = .error (.invalid_argument "parameter N_w2 must be even") ∧
    sanity_check (define_parameters false
        { MEASURE_freq := true, MEASURE_h2w := true, N_w2 := some (-3), N_W := some 2 })
      = .error (.invalid_argument "parameter N_w2 must be even") :=
  ⟨sanity_check_odd_N_w2 { MEASURE_g2w := true, N_w2 := some 3, N_W := some 2 } 3 2
      (Or.inl rfl) rfl rfl (by decide),
   sanity_check_odd_N_w2
      { MEASURE_freq := true, MEASURE_h2w := true, N_w2 := some (-3), N_W := some 2 } (-3) 2
      (Or.inr rfl) rfl rfl (by decide)⟩

/-- C7: `sanity_check` rejects nothing beyond the listed constraints. For every
parameter set in which each enabled measurement has its companion options set,
`N_w2` is even when `MEASURE_g2w` or `MEASURE_h2w` is enabled, and
`COMPUTE_VERTEX` is either off or has its prerequisites, `sanity_check`
returns without error. -/
theorem sanity_check_accepts (p : params)
    (hfreq : p.MEASURE_freq = true → p.N_MATSUBARA ≠ none)
    (hleg : p.MEASURE_legendre = true → p.N_LEGENDRE ≠ none ∧ p.N_MATSUBARA ≠ none)
    (hnnt : p.MEASURE_nnt = true → p.N_nn ≠ none)
    (hnnw : p.MEASURE_nnw = true → p.N_W ≠ none)
    (h2p : (p.MEASURE_g2w = true ∨ p.MEASURE_h2w = true) →
      p.N_W ≠ none ∧ ∃ n, p.N_w2 = some n ∧ Even n)
    (hcv : p.COMPUTE_VERTEX = false ∨ vertex_prerequisites p) :
    sanity_check p = .ok p.VERBOSE := by
  rcases sanity_check_cases p with ⟨hok, _⟩ | ⟨_, _, hnot⟩
  · exact hok
  · exfalso
    apply hnot
    have some_of_ne : ∀ o : Option Int, o ≠ none → o.isSome = true := by
      intro o ho; cases o <;> simp_all
    refine ⟨fun h => some_of_ne _ (hfreq h),
      fun h => ⟨some_of_ne _ (hleg h).1, some_of_ne _ (hleg h).2⟩,
      fun h => some_of_ne _ (hnnt h), fun h => some_of_ne _ (hnnw h), ?_, ?_⟩
    · intro h
      obtain ⟨hW, n, hn, he⟩ := h2p h
      exact ⟨n, hn, some_of_ne _ hW, (tmod_two_eq_zero_iff_even n).2 he⟩
    · intro h
      rcases hcv with hoff | hpre
      · rw [hoff] at h; cases h
      · exact hpre

/-- Witness for C7: `MEASURE_g2w` enabled with `N_w2 = 4` and `N_W = 2`,
everything else off. -/
theorem sanity_check_accepts_witness :
    sanity_check { MEASURE_g2w := true, N_w2 := some 4, N_W := some 2 } = .ok true :=
  sanity_check_accepts { MEASURE_g2w := true, N_w2 := some 4, N_W := some 2 }
    (by decide) (by decide) (by decide) (by decide)
    (fun _ => ⟨by decide, 4, rfl, by decide⟩) (Or.inl rfl)


/-! ## The constructor (C9) -/

/-- Unfolding of `construct`. -/
theorem construct_eq (CLOCKS_PER_SEC clock : Int) (mpi_comm_size : Option Int)
    (parms : params) (crank_ : Int) :
    construct CLOCKS_PER_SEC clock mpi_comm_size parms crank_
      = ((hybridization_ctor CLOCKS_PER_SEC clock mpi_comm_size parms crank_).run).run [] := rfl

/-- An initialisation adds its part to the record and goes on. -/
theorem run_init_bind {α β : Type} (p : Part) (v : α) (f : α → Ctor β) (done : List Part) :
    ((init p v >>= f).run).run done = ((f v).run).run (done ++ [p]) := rfl

/-- A call that returns goes on with its value. -/
theorem run_call_ok_bind {α β : Type} (v : α) (f : α → Ctor β) (done : List Part) :
    ((call (.ok v) >>= f).run).run done = ((f v).run).run done := rfl

/-- A call that throws ends the constructor, the record as it stands. -/
theorem run_call_error_bind {α β : Type} (e : Exception) (f : α → Ctor β) (done : List Part) :
    ((call (.error e : Except Exception α) >>= f).run).run done = (.error e, done) := rfl

/-- The end of the constructor body. -/
theorem run_pure {α : Type} (v : α) (done : List Part) :
    (((pure v : Ctor α)).run).run done = (.ok v, done) := rfl

/-- For every parameter set that `sanity_check` rejects, the constructor ends
with the same exception, and what exists at that point is what the member
initialisers built: the base class, `crank`, `local_config` and `hyb_config`. -/
theorem construct_of_rejected (CLOCKS_PER_SEC clock : Int) (mpi_comm_size : Option Int)
    (parms : params) (crank_ : Int) (e : Exception) (hrej : sanity_check parms = .error e) :
    construct CLOCKS_PER_SEC clock mpi_comm_size parms crank_
      = (.error e, [.mcbase, .crank, .local_config, .hyb_config]) := by
  simp only [construct_eq, hybridization_ctor, run_init_bind, hrej, run_call_error_bind]
  rfl

/-- What a successful construction establishes for the progress report: the
time budget `end_time - start_time = CLOCKS_PER_SEC * MAX_TIME`, no sweep done,
the thresholds as configured and the pool size. -/
theorem construct_ok (CLOCKS_PER_SEC clock : Int) (mpi_comm_size : Option Int)
    (parms : params) (crank_ : Int) (h : hybridization)
    (hok : (construct CLOCKS_PER_SEC clock mpi_comm_size parms crank_).1 = .ok h) :
    ∃ MAX_TIME, parms.MAX_TIME = some MAX_TIME ∧
      h.end_time - h.start_time = CLOCKS_PER_SEC * MAX_TIME ∧
      h.start_time = clock ∧ h.sweeps = 0 ∧ h.csize = mpi_comm_size.getD 1 ∧
      parms.THERMALIZATION = some h.thermalization_sweeps ∧
      parms.SWEEPS = some h.total_sweeps := by
  obtain ⟨cv, gf, mf, g2, h2, ml, mnn, mnt, mnw, mss, mt, sf, vb, be, mx, nh, nl, nm, nme, no,
      nt, nW, nnn, nw2, sw, th⟩ := parms
  revert hok
  generalize hsc : sanity_check _ = r
  cases r with
  | error e =>
    intro hok
    rw [construct_of_rejected _ _ _ _ _ _ hsc] at hok
    cases hok
  | ok v =>
    simp only [construct_eq, hybridization_ctor, run_init_bind, hsc, run_call_ok_bind]
    cases th
    · simp only [value, run_call_error_bind]; intro hok; cases hok
    simp only [value, run_call_ok_bind, run_init_bind]
    cases sw
    · simp only [value, run_call_error_bind]; intro hok; cases hok
    simp only [value, run_call_ok_bind, run_init_bind]
    cases no
    · simp only [value, run_call_error_bind]; intro hok; cases hok
    simp only [value, run_call_ok_bind, run_init_bind]
    cases be
    · simp only [value, run_call_error_bind]; intro hok; cases hok
    simp only [value, run_call_ok_bind, run_init_bind]
    cases nme
    · simp only [value, run_call_error_bind]; intro hok; cases hok
    simp only [value, run_call_ok_bind, run_init_bind]
    cases nh
    · simp only [value, run_call_error_bind]; intro hok; cases hok
    simp only [value, run_call_ok_bind, run_init_bind]
    cases nm
    · simp only [value, run_call_error_bind]; intro hok; cases hok
    simp only [value, run_call_ok_bind, run_init_bind]
    cases nl
    · simp only [value, run_call_error_bind]; intro hok; cases hok
    simp only [value, run_call_ok_bind, run_init_bind]
    cases nt
    · simp only [value, run_call_error_bind]; intro hok; cases hok
    simp only [value, run_call_ok_bind, run_init_bind]
    cases nnn
    · simp only [value, run_call_error_bind]; intro hok; cases hok
    simp only [value, run_call_ok_bind, run_init_bind]
    cases nw2
    · simp only [value, run_call_error_bind]; intro hok; cases hok
    simp only [value, run_call_ok_bind, run_init_bind]
    cases nW
    · simp only [value, run_call_error_bind]; intro hok; cases hok
    simp only [value, run_call_ok_bind, run_init_bind]
    cases mx
    · simp only [value, run_call_error_bind]; intro hok; cases hok
    simp only [value, run_call_ok_bind, run_init_bind, run_pure]
    intro hok
    simp only [Except.ok.injEq] at hok
    subst hok
    cases mpi_comm_size <;> simp


/-- C9: the constructor at a rejected parameter set, `odd_N_w2_run`. It ends
with the `std::invalid_argument` of `sanity_check`, and no counter, sweep
field, sign or measurement object has been initialised at that point; but the
base class, `crank`, the local configuration and the hybridization
configuration have been constructed, by the member initialisers that run
before the body calls `sanity_check`. -/
theorem construct_rejected_after_member_initialisers :
    sanity_check odd_N_w2_run = .error (.invalid_argument "parameter N_w2 must be even") ∧
    construct 1000000 0 none odd_N_w2_run 0
      = (.error (.invalid_argument "parameter N_w2 must be even"),
         [.mcbase, .crank, .local_config, .hyb_config]) :=
  ⟨rfl, rfl⟩

/-! ## Progress report (C1 - C3, C8, C10) -/

/-- The thermalization test as a comparison. -/
theorem is_thermalized_iff (h : hybridization) :
    is_thermalized h = true ↔ h.thermalization_sweeps ≤ h.sweeps := by
  simp [is_thermalized]

/-- The second branch of `fraction_completed`. -/
theorem fraction_completed_of_thermalized (h : hybridization) (clock : Int)
    (ht : is_thermalized h = true) :
    fraction_completed h clock = max (work_fraction h) (time_fraction h clock / (h.csize : ℚ)) := by
  simp [fraction_completed, ht]

/-- C1: for every thermalized state (`sweeps >= thermalization_sweeps`),
`fraction_completed` returns `max(work_fraction, time_fraction)` with
`work_fraction = (sweeps - thermalization_sweeps) / total_sweeps` and
`time_fraction = (clock - start_time) / (end_time - start_time) / csize`, where
`end_time - start_time = CLOCKS_PER_SEC * MAX_TIME`; over exact rationals, with
`total_sweeps > 0`, `MAX_TIME > 0` and `csize >= 1`. -/
theorem fraction_completed_thermalized (h : hybridization) (clock CLOCKS_PER_SEC MAX_TIME : Int)
    (htherm : h.sweeps ≥ h.thermalization_sweeps)
    (_htotal : h.total_sweeps > 0) (_hcps : CLOCKS_PER_SEC > 0) (_hmax : MAX_TIME > 0)
    (_hcsize : h.csize ≥ 1)
    (hbudget : h.end_time - h.start_time = CLOCKS_PER_SEC * MAX_TIME) :
    is_thermalized h = true ∧
    fraction_completed h clock =
      max (((h.sweeps : ℚ) - (h.thermalization_sweeps : ℚ)) / (h.total_sweeps : ℚ))
          (((clock : ℚ) - (h.start_time : ℚ)) / ((CLOCKS_PER_SEC : ℚ) * (MAX_TIME : ℚ))
            / (h.csize : ℚ)) := by
  have ht : is_thermalized h = true := (is_thermalized_iff h).2 htherm
  refine ⟨ht, ?_⟩
  rw [fraction_completed_of_thermalized h clock ht, work_fraction, time_fraction, hbudget]
  push_cast
  rfl

/-- Witness for C1: 50 sweeps past a threshold of 10, one worker. -/
theorem fraction_completed_thermalized_witness :
    is_thermalized (engine 60 10 1) = true ∧
    fraction_completed (engine 60 10 1) 30000000 =
      max ((((engine 60 10 1).sweeps : ℚ) - ((engine 60 10 1).thermalization_sweeps : ℚ))
            / ((engine 60 10 1).total_sweeps : ℚ))
          ((((30000000 : Int) : ℚ) - ((engine 60 10 1).start_time : ℚ))
            / ((((1000000 : Int) : ℚ)) * (((60 : Int) : ℚ))) / ((engine 60 10 1).csize : ℚ)) :=
  fraction_completed_thermalized (engine 60 10 1) 30000000 1000000 60
    (by decide) (by decide) (by decide) (by decide) (by decide) (by decide)

/-- C2: for every state whose sweep count is below `thermalization_sweeps`,
`fraction_completed` returns exactly 0, whatever the clock reading, the time
budget, `total_sweeps` and the pool size are. -/
theorem fraction_completed_thermalizing (h : hybridization) (clock : Int)
    (hbelow : h.sweeps < h.thermalization_sweeps) :
    is_thermalized h = false ∧ fraction_completed h clock = 0 := by
  have ht : is_thermalized h = false := by
    simp [is_thermalized, hbelow]
  exact ⟨ht, by simp [fraction_completed, ht]⟩

/-- Witness for C2: 3 sweeps done of 10 thermalization sweeps. -/
theorem fraction_completed_thermalizing_witness :
    is_thermalized (engine 3 10 4) = false ∧ fraction_completed (engine 3 10 4) 123456789 = 0 :=
  fraction_completed_thermalizing (engine 3 10 4) 123456789 (by decide)

/-- C3: for every fixed elapsed time, every `MAX_TIME > 0` and every pool size
`n >= 1`, the time-based term that `fraction_completed` feeds into the `max`
with `csize = 2 n` is exactly half of that term with `csize = n`: a thermalized
engine reports `max(work_fraction, t)` with `csize = n` and
`max(work_fraction, t / 2)` with `csize = 2 n`, where
`t = (clock - start_time) / (CLOCKS_PER_SEC * MAX_TIME) / n`; and where the
time-based term is the larger one, the reported fraction itself is halved. -/
theorem time_term_pool_doubling (h : hybridization) (clock CLOCKS_PER_SEC MAX_TIME n : Int)
    (htherm : h.sweeps ≥ h.thermalization_sweeps)
    (hcps : CLOCKS_PER_SEC > 0) (hmax : MAX_TIME > 0) (hn : n ≥ 1)
    (hbudget : h.end_time - h.start_time = CLOCKS_PER_SEC * MAX_TIME) :
    fraction_completed { h with csize := n } clock
      = max (work_fraction h)
          (((clock : ℚ) - (h.start_time : ℚ)) / ((CLOCKS_PER_SEC : ℚ) * (MAX_TIME : ℚ))
            / (n : ℚ)) ∧
    fraction_completed { h with csize := 2 * n } clock
      = max (work_fraction h)
          (((clock : ℚ) - (h.start_time : ℚ)) / ((CLOCKS_PER_SEC : ℚ) * (MAX_TIME : ℚ))
            / (n : ℚ) / 2) ∧
    (h.start_time ≤ clock →
      work_fraction h ≤ time_fraction h clock / ((2 * n : Int) : ℚ) →
      fraction_completed { h with csize := 2 * n } clock
        = fraction_completed { h with csize := n } clock / 2) := by
  have hn0 : (0 : ℚ) < (n : ℚ) := by
    have : (0 : Int) < n := by omega
    exact_mod_cast this
  have hb : (0 : ℚ) < (CLOCKS_PER_SEC : ℚ) * (MAX_TIME : ℚ) := by
    have : (0 : Int) < CLOCKS_PER_SEC * MAX_TIME := Int.mul_pos hcps hmax
    exact_mod_cast this
  have htf : time_fraction h clock
      = ((clock : ℚ) - (h.start_time : ℚ)) / ((CLOCKS_PER_SEC : ℚ) * (MAX_TIME : ℚ)) := by
    rw [time_fraction, hbudget]
    push_cast
    rfl
  have hfc : ∀ k : Int, fraction_completed { h with csize := k } clock
      = max (work_fraction h) (time_fraction h clock / (k : ℚ)) := fun k =>
    fraction_completed_of_thermalized { h with csize := k } clock
      ((is_thermalized_iff { h with csize := k }).2 htherm)
  have hhalf : time_fraction h clock / ((2 * n : Int) : ℚ)
      = time_fraction h clock / (n : ℚ) / 2 := by
    have hcast : ((2 * n : Int) : ℚ) = (n : ℚ) * 2 := by
      push_cast
      ring
    rw [hcast, div_div]
  refine ⟨by rw [hfc n, htf], by rw [hfc (2 * n), hhalf, htf], ?_⟩
  intro hstart hwork
  have ht0 : 0 ≤ time_fraction h clock / (n : ℚ) := by
    rw [htf]
    have : (0 : ℚ) ≤ (clock : ℚ) - (h.start_time : ℚ) := by
      have : (0 : Int) ≤ clock - h.start_time := by omega
      exact_mod_cast this
    exact div_nonneg (div_nonneg this hb.le) hn0.le
  rw [hhalf] at hwork
  rw [hfc n, hfc (2 * n), hhalf, max_eq_right hwork, max_eq_right (by linarith)]

/-- Witness for C3: a pool of 3 workers against a pool of 6, no sweep beyond
thermalization and half of the budget elapsed. -/
theorem time_term_pool_doubling_witness :
    fraction_completed { engine 0 0 1 with csize := 2 * 3 } 30000000
      = fraction_completed { engine 0 0 1 with csize := 3 } 30000000 / 2 :=
  (time_term_pool_doubling (engine 0 0 1) 30000000 1000000 60 3
    (by decide) (by decide) (by decide) (by decide) (by decide)).2.2 (by decide)
    (by norm_num [work_fraction, time_fraction, engine])

/-- C10: reported progress never goes backwards. With `total_sweeps > 0`,
`MAX_TIME > 0` and `csize >= 1`, for all sweep counts `s <= s'` and all clock
readings `start_time <= c <= c'`, `fraction_completed` at `(s, c)` is `>= 0`
and `<=` its value at `(s', c')`, including when `s` is below and `s'` at or
above `thermalization_sweeps`. -/
theorem fraction_completed_monotone (h : hybridization) (s s' c c' CLOCKS_PER_SEC MAX_TIME : Int)
    (htotal : h.total_sweeps > 0) (hcps : CLOCKS_PER_SEC > 0) (hmax : MAX_TIME > 0)
    (hcsize : h.csize ≥ 1)
    (hbudget : h.end_time - h.start_time = CLOCKS_PER_SEC * MAX_TIME)
    (hs : s ≤ s') (_hstart : h.start_time ≤ c) (hc : c ≤ c') :
    0 ≤ fraction_completed { h with sweeps := s } c ∧
    fraction_completed { h with sweeps := s } c ≤ fraction_completed { h with sweeps := s' } c' := by
  have hcz : (0 : ℚ) < (h.csize : ℚ) := by
    have : (0 : Int) < h.csize := by omega
    exact_mod_cast this
  have htz : (0 : ℚ) < (h.total_sweeps : ℚ) := by exact_mod_cast htotal
  have hb : (0 : ℚ) < ((h.end_time - h.start_time : Int) : ℚ) := by
    have : (0 : Int) < h.end_time - h.start_time := by
      rw [hbudget]; exact Int.mul_pos hcps hmax
    exact_mod_cast this
  have hwork : ∀ t : Int, h.thermalization_sweeps ≤ t →
      0 ≤ work_fraction { h with sweeps := t } := by
    intro t ht
    have : (0 : ℚ) ≤ ((t - h.thermalization_sweeps : Int) : ℚ) := by
      have : (0 : Int) ≤ t - h.thermalization_sweeps := by omega
      exact_mod_cast this
    exact div_nonneg this htz.le
  have hnonneg : ∀ (t k : Int), 0 ≤ fraction_completed { h with sweeps := t } k := by
    intro t k
    by_cases ht : h.thermalization_sweeps ≤ t
    · rw [fraction_completed_of_thermalized { h with sweeps := t } k
        ((is_thermalized_iff { h with sweeps := t }).2 ht)]
      exact le_trans (hwork t ht) (le_max_left _ _)
    · have : is_thermalized { h with sweeps := t } = false := by
        simp [is_thermalized]; omega
      simp [fraction_completed, this]
  refine ⟨hnonneg s c, ?_⟩
  by_cases ht : h.thermalization_sweeps ≤ s
  · have ht' : h.thermalization_sweeps ≤ s' := le_trans ht hs
    rw [fraction_completed_of_thermalized { h with sweeps := s } c
        ((is_thermalized_iff { h with sweeps := s }).2 ht),
      fraction_completed_of_thermalized { h with sweeps := s' } c'
        ((is_thermalized_iff { h with sweeps := s' }).2 ht')]
    apply max_le_max
    · simp only [work_fraction]
      apply div_le_div_of_nonneg_right _ htz.le
      have : s - h.thermalization_sweeps ≤ s' - h.thermalization_sweeps := by omega
      exact_mod_cast this
    · simp only [time_fraction]
      apply div_le_div_of_nonneg_right _ hcz.le
      apply div_le_div_of_nonneg_right _ hb.le
      have : c - h.start_time ≤ c' - h.start_time := by omega
      exact_mod_cast this
  · have : is_thermalized { h with sweeps := s } = false := by
      simp [is_thermalized]; omega
    have h0 : fraction_completed { h with sweeps := s } c = 0 := by
      simp [fraction_completed, this]
    rw [h0]
    exact hnonneg s' c'

/-- Witness for C10: from 3 sweeps, below the threshold of 10, to 40 sweeps. -/
theorem fraction_completed_monotone_witness :
    0 ≤ fraction_completed { engine 0 10 2 with sweeps := 3 } 1000 ∧
    fraction_completed { engine 0 10 2 with sweeps := 3 } 1000
      ≤ fraction_completed { engine 0 10 2 with sweeps := 40 } 2000 :=
  fraction_completed_monotone (engine 0 10 2) 3 40 1000 2000 1000000 60
    (by decide) (by decide) (by decide) (by decide) (by decide) (by decide) (by decide)
    (by decide)


end CTHyb
